import Mathlib

/-!
Shallow embedding of the IST8308 magnetometer driver
(`src/drivers/magnetometer/isentek/ist8308/IST8308.cpp`) and proofs about its
state machine, configuration checking and sample decoding.

Machine bytes are modelled as `Nat` (with explicit `≤ 255` bounds where byte
width matters), the 16-bit signed decode as `Int`, timestamps as `Nat`
microseconds.  The bus, the scheduler and the monotonic clock are external
collaborators: each invocation of the step function receives an `Env` record
holding the values the bus returns on that invocation and the current clock
value.  The step function `Run` returns the updated driver record together
with the externally visible effects of the invocation (schedule request,
forwarded sample, register writes, diagnostic counts).
-/

namespace IST8308

/-- Driver state machine phases (`enum class STATE` from the driver's header,
referenced throughout `IST8308::Run`). -/
inductive STATE where
  | RESET
  | WAIT_FOR_RESET
  | CONFIGURE
  | READ
  | REQUEST_STOP
  | STOPPED
deriving DecidableEq, Repr

/-- Modelled from the spec: the expected device signature read from the
identity (WAI) register.  The concrete value lives in the driver's header,
which is not part of the sources; no claim depends on the value itself. -/
def Device_ID : Nat := 8

/-- Modelled from the spec: the software-reset command bit of the CNTL3
register ("issue a software-reset command bit"; "the reset bit has
self-cleared").  Concrete value from the missing header; claims use it only
as a nonzero single-bit mask. -/
def CNTL3_BIT_SRST : Nat := 1

/-- Modelled from the spec: the data-ready bit mask of the status byte
("If the data-ready flag is set in the status byte").  The concrete value
lives in the missing header; the spec requires it to be one specific bit,
so it is a nonzero single-bit mask. -/
def STAT_BIT_DRDY : Nat := 1

/-- Modelled from the spec: register address of CNTL3 (register map is in the
missing header; the address value is immaterial to every claim). -/
def Reg_CNTL3 : Nat := 50

/-- The 16-bit two's-complement reinterpretation of a natural number, as
performed by the C++ cast of `(msb << 8u) | lsb` to `int16_t`. -/
def toInt16 (n : Nat) : Int :=
  if n % 65536 < 32768 then ((n % 65536 : Nat) : Int)
  else ((n % 65536 : Nat) : Int) - 65536

/-- Embeds `combine` (IST8308.cpp lines 38-41):
`static constexpr int16_t combine(uint8_t msb, uint8_t lsb) { return (msb << 8u) | lsb; }`. -/
def combine (msb lsb : Nat) : Int :=
  toInt16 ((msb <<< 8) ||| lsb)

/-- The 16-bit signed integer whose most-significant byte is `msb` and
least-significant byte is `lsb`, written the way the spec words it
(positional value, then signed reinterpretation).  Used to compare the
source's bit-twiddling `combine` against the specified decode. -/
def int16OfBytes (msb lsb : Nat) : Int :=
  toInt16 (msb * 256 + lsb)

/-- Configuration-table entry `register_config_t` {register, set bits,
clear bits}; the table itself lives in the missing header, so the embedding
is parametric in the table. -/
structure register_config_t where
  reg : Nat
  set_bits : Nat
  clear_bits : Nat
deriving DecidableEq, Repr

/-- Value written back by `RegisterSetAndClearBits` (IST8308.cpp lines
281-295) given the value `orig` its read-modify-write read returned:
OR in `setbits` when nonzero, AND with the byte complement of `clearbits`
when nonzero. -/
def setAndClearBitsValue (orig setbits clearbits : Nat) : Nat :=
  let val := if setbits ≠ 0 then orig ||| setbits else orig
  if clearbits ≠ 0 then val &&& (255 ^^^ clearbits) else val

/-- The success flag computed by `RegisterCheck` (IST8308.cpp lines 241-253)
from the value `v` the verification read returned: fail when `set_bits` is
nonzero yet `v & set_bits` is zero, or when `clear_bits` is nonzero yet
`v & clear_bits` is nonzero. -/
def checkSuccess (c : register_config_t) (v : Nat) : Bool :=
  let success := true
  let success := if c.set_bits ≠ 0 ∧ v &&& c.set_bits = 0 then false else success
  let success := if c.clear_bits ≠ 0 ∧ v &&& c.clear_bits ≠ 0 then false else success
  success

/-- Embeds `IST8308::RegisterCheck` (IST8308.cpp lines 239-265): returns the
success flag together with the list of (register, value) corrective writes
performed.  `v` is the value returned by the verification read, `rmw` the
value returned by the corrective read-modify-write's own read (a separate
bus transaction). -/
def RegisterCheck (c : register_config_t) (v rmw : Nat) : Bool × List (Nat × Nat) :=
  if checkSuccess c v then (true, [])
  else (false, [(c.reg, setAndClearBitsValue rmw c.set_bits c.clear_bits)])

/-- The loop of `IST8308::Configure` (IST8308.cpp lines 226-230) over the
configuration table: every entry is checked (and corrected on failure), and
the pass succeeds only if every individual check succeeded.  `rv i` / `mv i`
are the values the bus returns for entry `i`'s verification read and
corrective read-modify-write read. -/
def ConfigureLoop : List register_config_t → (Nat → Nat) → (Nat → Nat) → Nat →
    Bool × List (Nat × Nat)
  | [], _, _, _ => (true, [])
  | c :: rest, rv, mv, i =>
    let r := RegisterCheck c (rv i) (mv i)
    let rec_ := ConfigureLoop rest rv mv (i + 1)
    (r.1 && rec_.1, r.2 ++ rec_.2)

/-- Modelled from the spec: the fixed physical scale factor set on the
Measurement Sink by `Configure` (IST8308.cpp line 233,
`set_scale(1.f / 6.6f * 0.01f)`, 6.6 LSB/uT); modelled as the exact rational
the expression denotes, ignoring `float` rounding. -/
def mag_scale : ℚ := 1 / (33 / 5) * (1 / 100)

/-- Modelled from the spec: the Measurement Sink converts raw LSB counts to
calibrated physical units by multiplying with the scale factor installed via
`set_scale` (the sink implementation is outside the sources). -/
def sinkCalibrated (raw : Int) : ℚ := (raw : ℚ) * mag_scale

/-- Mutable driver fields carried across invocations of the step function:
the atomic `_state`, `_reset_timestamp`, `_last_config_check_timestamp` and
the health-check cursor `_checked_register`. -/
structure Driver where
  state : STATE
  reset_timestamp : Nat
  last_config_check_timestamp : Nat
  checked_register : Nat
deriving DecidableEq, Repr

/-- The `TransferBuffer` struct of the READ state (IST8308.cpp lines
162-170): status byte plus the six axis data bytes, low byte first. -/
structure TransferBuffer where
  STAT : Nat
  DATAXL : Nat
  DATAXH : Nat
  DATAYL : Nat
  DATAYH : Nat
  DATAZL : Nat
  DATAZH : Nat
deriving DecidableEq, Repr

/-- The external world of one step-function invocation: the current clock
value and whatever the bus returns on each transaction of this invocation. -/
structure Env where
  /-- `hrt_absolute_time()` in microseconds. -/
  now : Nat
  /-- Value returned by `RegisterRead(Register::WAI)`. -/
  wai : Nat
  /-- Value returned by `RegisterRead(Register::CNTL3)` (also used as the
  read side of the RESET state's read-modify-write on CNTL3). -/
  cntl3 : Nat
  /-- Whether the READ state's bulk `transfer` returned `PX4_OK`. -/
  transferOk : Bool
  /-- Contents of the transfer buffer after the bulk read.  The buffer is
  zero-initialized before the transfer; on a failed transfer it may remain
  zero or hold partial data — the environment chooses. -/
  buf : TransferBuffer
  /-- Value returned by the verification read of configuration-table entry
  `i` during this invocation. -/
  readVal : Nat → Nat
  /-- Value returned by the corrective read-modify-write's read for entry
  `i` during this invocation. -/
  rmwVal : Nat → Nat

/-- Scheduling request issued by one invocation: `ScheduleNow`,
`ScheduleDelayed`, `ScheduleOnInterval(interval, delay)`, `ScheduleClear`,
or no scheduling call at all (`Keep`: an armed interval keeps running). -/
inductive Sched where
  | Now
  | Delayed (us : Nat)
  | OnInterval (interval delay : Nat)
  | Clear
  | Keep
deriving DecidableEq, Repr

/-- Result of one invocation of the step function: updated driver record and
the externally visible effects. -/
structure RunResult where
  drv : Driver
  sched : Sched
  /-- Sample forwarded to the Measurement Sink, if any: capture timestamp
  and the three raw decoded axis values handed to `_px4_mag.update`. -/
  forwarded : Option (Nat × Int × Int × Int)
  /-- Register writes (register, value) issued during the invocation. -/
  writes : List (Nat × Nat)
  /-- Whether `_bad_transfer_perf` was counted (bulk transfer failed). -/
  badTransfer : Bool
  /-- Index of the configuration-table entry health-checked during this
  invocation, if the incremental check ran. -/
  checkedIdx : Option Nat
  /-- Scale factor installed on the sink during this invocation, if any. -/
  scaleSet : Option ℚ

/-- Embeds `IST8308::Run` (IST8308.cpp lines 111-220), one invocation of the
scheduler-driven step function, parametric in the configuration table `cfg`
(`_register_cfg`, whose contents live in the missing header;
`size_register_cfg` is `cfg.length`). -/
def Run (cfg : List register_config_t) (d : Driver) (env : Env) : RunResult :=
  match d.state with
  | STATE.RESET =>
    { drv := { d with reset_timestamp := env.now, state := STATE.WAIT_FOR_RESET }
      sched := Sched.Delayed 50000
      forwarded := none
      writes := [(Reg_CNTL3, setAndClearBitsValue env.cntl3 CNTL3_BIT_SRST 0)]
      badTransfer := false
      checkedIdx := none
      scaleSet := none }
  | STATE.WAIT_FOR_RESET =>
    if env.wai = Device_ID ∧ env.cntl3 &&& CNTL3_BIT_SRST = 0 then
      { drv := { d with state := STATE.CONFIGURE }
        sched := Sched.Now
        forwarded := none
        writes := []
        badTransfer := false
        checkedIdx := none
        scaleSet := none }
    else if env.now - d.reset_timestamp > 100000 then
      { drv := { d with state := STATE.RESET }
        sched := Sched.Now
        forwarded := none
        writes := []
        badTransfer := false
        checkedIdx := none
        scaleSet := none }
    else
      { drv := d
        sched := Sched.Delayed 50000
        forwarded := none
        writes := []
        badTransfer := false
        checkedIdx := none
        scaleSet := none }
  | STATE.CONFIGURE =>
    let r := ConfigureLoop cfg env.readVal env.rmwVal 0
    if r.1 then
      { drv := { d with state := STATE.READ }
        sched := Sched.OnInterval 20000 20000
        forwarded := none
        writes := r.2
        badTransfer := false
        checkedIdx := none
        scaleSet := some mag_scale }
    else
      { drv := d
        sched := Sched.Delayed 50000
        forwarded := none
        writes := r.2
        badTransfer := false
        checkedIdx := none
        scaleSet := some mag_scale }
  | STATE.READ =>
    let failure := !env.transferOk
    let timestamp_sample := env.now
    let forwarded :=
      if env.buf.STAT ≠ 0 ∧ STAT_BIT_DRDY ≠ 0 then
        some (timestamp_sample,
              combine env.buf.DATAXH env.buf.DATAXL,
              combine env.buf.DATAYH env.buf.DATAYL,
              combine env.buf.DATAZH env.buf.DATAZL)
      else none
    if failure = true ∨ env.now - d.last_config_check_timestamp > 100000 then
      let entry := cfg.getD d.checked_register ⟨0, 0, 0⟩
      let r := RegisterCheck entry (env.readVal d.checked_register)
                 (env.rmwVal d.checked_register)
      if r.1 then
        { drv := { d with last_config_check_timestamp := timestamp_sample
                          checked_register := (d.checked_register + 1) % cfg.length }
          sched := Sched.Keep
          forwarded := forwarded
          writes := r.2
          badTransfer := failure
          checkedIdx := some d.checked_register
          scaleSet := none }
      else
        { drv := { d with state := STATE.CONFIGURE }
          sched := Sched.Now
          forwarded := forwarded
          writes := r.2
          badTransfer := failure
          checkedIdx := some d.checked_register
          scaleSet := none }
    else
      { drv := d
        sched := Sched.Keep
        forwarded := forwarded
        writes := []
        badTransfer := failure
        checkedIdx := none
        scaleSet := none }
  | STATE.REQUEST_STOP =>
    { drv := { d with state := STATE.STOPPED }
      sched := Sched.Clear
      forwarded := none
      writes := []
      badTransfer := false
      checkedIdx := none
      scaleSet := none }
  | STATE.STOPPED =>
    { drv := d
      sched := Sched.Keep
      forwarded := none
      writes := []
      badTransfer := false
      checkedIdx := none
      scaleSet := none }

/-- The store performed by `IST8308::Stop` (IST8308.cpp line 76),
`_state.store(STATE::REQUEST_STOP)`, before it requests an immediate
invocation and polls for `STOPPED`. -/
def stopStore (d : Driver) : Driver :=
  { d with state := STATE.REQUEST_STOP }

/-- Iterated step function: run one invocation per environment in the list. -/
def runSeq (cfg : List register_config_t) : Driver → List Env → Driver
  | d, [] => d
  | d, e :: es => runSeq cfg (Run cfg d e).drv es

/-- Sequence of configuration-table indices health-checked over a run. -/
def checkTrace (cfg : List register_config_t) : Driver → List Env → List Nat
  | _, [] => []
  | d, e :: es =>
    match (Run cfg d e).checkedIdx with
    | some i => i :: checkTrace cfg (Run cfg d e).drv es
    | none => checkTrace cfg (Run cfg d e).drv es

/-- The driver is in the READ state at every point of the run, including
after its last invocation. -/
def StaysInRead (cfg : List register_config_t) : Driver → List Env → Prop
  | d, [] => d.state = STATE.READ
  | d, e :: es => d.state = STATE.READ ∧ StaysInRead cfg (Run cfg d e).drv es

/-! Helper lemmas shared between several claims. -/

theorem registerCheck_fst (c : register_config_t) (v rmw : Nat) :
    (RegisterCheck c v rmw).1 = checkSuccess c v := by
  unfold RegisterCheck
  split
  · next h => simp [h]
  · next h => simp at h; simp [h]

theorem configureLoop_success_iff (cfg : List register_config_t)
    (rv mv : Nat → Nat) (i : Nat) :
    (ConfigureLoop cfg rv mv i).1 = true ↔
      ∀ j, j < cfg.length → checkSuccess (cfg.getD j ⟨0, 0, 0⟩) (rv (i + j)) = true := by
  induction cfg generalizing i with
  | nil => simp [ConfigureLoop]
  | cons c rest ih =>
    simp only [ConfigureLoop, Bool.and_eq_true, List.length_cons]
    rw [registerCheck_fst, ih (i + 1)]
    constructor
    · rintro ⟨h1, h2⟩ j hj
      cases j with
      | zero => simpa using h1
      | succ j' =>
        have := h2 j' (by omega)
        simpa [Nat.add_assoc, Nat.add_comm 1 j'] using this
    · intro h
      refine ⟨by simpa using h 0 (by omega), fun j hj => ?_⟩
      have := h (j + 1) (by omega)
      simpa [Nat.add_assoc, Nat.add_comm 1 j] using this

theorem run_read_cases (cfg : List register_config_t) (d : Driver) (env : Env)
    (h : d.state = STATE.READ) :
    ((Run cfg d env).drv = d ∧ (Run cfg d env).checkedIdx = none) ∨
    ((Run cfg d env).checkedIdx = some d.checked_register ∧
      checkSuccess (cfg.getD d.checked_register ⟨0, 0, 0⟩)
        (env.readVal d.checked_register) = true ∧
      (Run cfg d env).drv.state = STATE.READ ∧
      (Run cfg d env).drv.checked_register = (d.checked_register + 1) % cfg.length) ∨
    ((Run cfg d env).checkedIdx = some d.checked_register ∧
      checkSuccess (cfg.getD d.checked_register ⟨0, 0, 0⟩)
        (env.readVal d.checked_register) = false ∧
      (Run cfg d env).drv.state = STATE.CONFIGURE ∧
      (Run cfg d env).drv.checked_register = d.checked_register) := by
  obtain ⟨s, rt, lt, cr⟩ := d
  replace h : s = STATE.READ := h
  subst h
  simp only [Run]
  split
  · rw [registerCheck_fst]
    split
    · next hck => exact Or.inr (Or.inl ⟨rfl, by simpa using hck, rfl, rfl⟩)
    · next hck =>
      exact Or.inr (Or.inr ⟨rfl, by simpa using hck, rfl, rfl⟩)
  · exact Or.inl ⟨rfl, rfl⟩

theorem run_cursor_nonread (cfg : List register_config_t) (d : Driver) (env : Env)
    (h : d.state ≠ STATE.READ) :
    (Run cfg d env).drv.checked_register = d.checked_register := by
  obtain ⟨s, rt, lt, cr⟩ := d
  replace h : s ≠ STATE.READ := h
  cases s with
  | READ => exact absurd rfl h
  | WAIT_FOR_RESET =>
    simp only [Run]
    split
    · rfl
    · split <;> rfl
  | CONFIGURE =>
    simp only [Run]
    split <;> rfl
  | RESET => rfl
  | REQUEST_STOP => rfl
  | STOPPED => rfl

theorem staysInRead_first (cfg : List register_config_t) (d : Driver)
    (envs : List Env) (h : StaysInRead cfg d envs) : d.state = STATE.READ := by
  cases envs with
  | nil => exact h
  | cons e es => exact h.1

theorem runSeq_stopped (cfg : List register_config_t) (d : Driver)
    (envs : List Env) (h : d.state = STATE.STOPPED) : runSeq cfg d envs = d := by
  induction envs generalizing d with
  | nil => rfl
  | cons e es ih =>
    obtain ⟨s, rt, lt, cr⟩ := d
    replace h : s = STATE.STOPPED := h
    subst h
    simp only [runSeq]
    exact ih _ rfl

/-! Claim theorems. -/

/-- C6: Stop() always terminates: the store of REQUEST_STOP performed by
`Stop()` makes the very next delivered invocation of the step function take
the REQUEST_STOP branch, which cancels all pending scheduled invocations
(`ScheduleClear`) and stores STOPPED; from STOPPED every further invocation
leaves the state STOPPED, so `Stop()`'s polling loop observes STOPPED within
a bounded number of scheduler ticks (one delivered invocation), from any
driver state. -/
theorem C6_stop_terminates (cfg : List register_config_t) (d : Driver)
    (env : Env) (envs : List Env) :
    (Run cfg (stopStore d) env).drv.state = STATE.STOPPED ∧
    (Run cfg (stopStore d) env).sched = Sched.Clear ∧
    (runSeq cfg (Run cfg (stopStore d) env).drv envs).state = STATE.STOPPED := by
  obtain ⟨s, rt, lt, cr⟩ := d
  simp only [stopStore, Run]
  refine ⟨trivial, trivial, ?_⟩
  rw [runSeq_stopped cfg _ envs rfl]

/-- C9: the health-check cursor `_checked_register` stays within the bounds
of the configuration table: starting below the table length, one invocation
of the step function either leaves it unchanged or advances it by one modulo
the table length, the latter exactly when an incremental health check ran on
the current entry and succeeded; so the new cursor is again in bounds and
the indexing `_register_cfg[_checked_register]` in the READ state is always
in bounds. -/
theorem C9_cursor_in_bounds (cfg : List register_config_t) (d : Driver)
    (env : Env) (hlen : 0 < cfg.length)
    (hc : d.checked_register < cfg.length) :
    (Run cfg d env).drv.checked_register < cfg.length ∧
    ((Run cfg d env).drv.checked_register = d.checked_register ∨
      ((Run cfg d env).drv.checked_register = (d.checked_register + 1) % cfg.length ∧
        (Run cfg d env).checkedIdx = some d.checked_register ∧
        checkSuccess (cfg.getD d.checked_register ⟨0, 0, 0⟩)
          (env.readVal d.checked_register) = true)) := by
  by_cases h : d.state = STATE.READ
  · rcases run_read_cases cfg d env h with ⟨hd, _⟩ | ⟨hi, hok, _, hcur⟩ | ⟨_, _, _, hcur⟩
    · rw [hd]
      exact ⟨hc, Or.inl rfl⟩
    · rw [hcur]
      exact ⟨Nat.mod_lt _ hlen, Or.inr ⟨rfl, hi, hok⟩⟩
    · rw [hcur]
      exact ⟨hc, Or.inl rfl⟩
  · rw [run_cursor_nonread cfg d env h]
    exact ⟨hc, Or.inl rfl⟩

/-- Witness for C9 at a one-entry table, a READ-state driver with cursor 0
and an environment that passes the health check. -/
theorem C9_cursor_in_bounds_witness :
    (0 : Nat) < 1 ∧
    (Run [⟨16, 1, 0⟩]
        ⟨STATE.READ, 0, 0, 0⟩
        ⟨200000, 0, 0, true, ⟨0, 0, 0, 0, 0, 0, 0⟩, fun _ => 1, fun _ => 1⟩).drv.checked_register < 1 ∧
    ((Run [⟨16, 1, 0⟩]
        ⟨STATE.READ, 0, 0, 0⟩
        ⟨200000, 0, 0, true, ⟨0, 0, 0, 0, 0, 0, 0⟩, fun _ => 1, fun _ => 1⟩).drv.checked_register = 0 ∨
      ((Run [⟨16, 1, 0⟩]
        ⟨STATE.READ, 0, 0, 0⟩
        ⟨200000, 0, 0, true, ⟨0, 0, 0, 0, 0, 0, 0⟩, fun _ => 1, fun _ => 1⟩).drv.checked_register = (0 + 1) % 1 ∧
        (Run [⟨16, 1, 0⟩]
        ⟨STATE.READ, 0, 0, 0⟩
        ⟨200000, 0, 0, true, ⟨0, 0, 0, 0, 0, 0, 0⟩, fun _ => 1, fun _ => 1⟩).checkedIdx = some 0 ∧
        checkSuccess (List.getD [⟨16, 1, 0⟩] 0 ⟨0, 0, 0⟩) 1 = true)) :=
  ⟨by decide,
    C9_cursor_in_bounds [⟨16, 1, 0⟩] ⟨STATE.READ, 0, 0, 0⟩
      ⟨200000, 0, 0, true, ⟨0, 0, 0, 0, 0, 0, 0⟩, fun _ => 1, fun _ => 1⟩
      (by decide) (by decide)⟩

/-- C3: in the READ state, when the incremental health check runs (the bulk
transfer failed or more than 100 ms elapsed since the last check) and the
checked configuration-table entry fails verification, the step function
stores CONFIGURE and requests an immediate re-invocation (`ScheduleNow`)
within the same invocation. -/
theorem C3_health_check_fail_reconfigures (cfg : List register_config_t)
    (d : Driver) (env : Env) (hstate : d.state = STATE.READ)
    (hgate : (!env.transferOk) = true ∨
      env.now - d.last_config_check_timestamp > 100000)
    (hfail : checkSuccess (cfg.getD d.checked_register ⟨0, 0, 0⟩)
      (env.readVal d.checked_register) = false) :
    (Run cfg d env).drv.state = STATE.CONFIGURE ∧
      (Run cfg d env).sched = Sched.Now := by
  obtain ⟨s, rt, lt, cr⟩ := d
  replace hstate : s = STATE.READ := hstate
  subst hstate
  simp only [Run, registerCheck_fst]
  rw [if_pos hgate, hfail, if_neg Bool.false_ne_true]
  exact ⟨rfl, rfl⟩

/-- Witness for C3: one-entry table requiring bit 0 set, read value 0 fails
the check while 200 ms have elapsed since the last check. -/
theorem C3_health_check_fail_reconfigures_witness :
    (Run [⟨16, 1, 0⟩] ⟨STATE.READ, 0, 0, 0⟩
        ⟨200000, 0, 0, true, ⟨0, 0, 0, 0, 0, 0, 0⟩, fun _ => 0, fun _ => 0⟩).drv.state
      = STATE.CONFIGURE ∧
    (Run [⟨16, 1, 0⟩] ⟨STATE.READ, 0, 0, 0⟩
        ⟨200000, 0, 0, true, ⟨0, 0, 0, 0, 0, 0, 0⟩, fun _ => 0, fun _ => 0⟩).sched
      = Sched.Now :=
  C3_health_check_fail_reconfigures [⟨16, 1, 0⟩] ⟨STATE.READ, 0, 0, 0⟩
    ⟨200000, 0, 0, true, ⟨0, 0, 0, 0, 0, 0, 0⟩, fun _ => 0, fun _ => 0⟩
    rfl (Or.inr (by decide)) (by decide)

/-- C5: in the WAIT_FOR_RESET state, if the identity register reads back the
expected device signature and the software-reset bit has self-cleared, the
step function stores CONFIGURE and requests an immediate invocation;
otherwise, if more than 100 ms elapsed since the reset was issued, it stores
RESET (retry, never a fatal failure); otherwise it stays in WAIT_FOR_RESET
and reschedules a 50 ms delay to re-check. -/
theorem C5_wait_for_reset (cfg : List register_config_t) (d : Driver)
    (env : Env) (hstate : d.state = STATE.WAIT_FOR_RESET) :
    ((env.wai = Device_ID ∧ env.cntl3 &&& CNTL3_BIT_SRST = 0) →
      (Run cfg d env).drv.state = STATE.CONFIGURE ∧
        (Run cfg d env).sched = Sched.Now) ∧
    (¬(env.wai = Device_ID ∧ env.cntl3 &&& CNTL3_BIT_SRST = 0) →
      env.now - d.reset_timestamp > 100000 →
      (Run cfg d env).drv.state = STATE.RESET ∧
        (Run cfg d env).sched = Sched.Now) ∧
    (¬(env.wai = Device_ID ∧ env.cntl3 &&& CNTL3_BIT_SRST = 0) →
      ¬(env.now - d.reset_timestamp > 100000) →
      (Run cfg d env).drv.state = STATE.WAIT_FOR_RESET ∧
        (Run cfg d env).sched = Sched.Delayed 50000) := by
  obtain ⟨s, rt, lt, cr⟩ := d
  replace hstate : s = STATE.WAIT_FOR_RESET := hstate
  subst hstate
  refine ⟨fun h1 => ?_, fun h1 h2 => ?_, fun h1 h2 => ?_⟩ <;> simp only [Run]
  · rw [if_pos h1]
    exact ⟨rfl, rfl⟩
  · rw [if_neg h1, if_pos h2]
    exact ⟨rfl, rfl⟩
  · rw [if_neg h1, if_neg h2]
    exact ⟨rfl, rfl⟩

/-- Witness for C5: successful readback (identity 8, reset bit cleared)
advances to CONFIGURE immediately. -/
theorem C5_wait_for_reset_witness :
    (Run [] ⟨STATE.WAIT_FOR_RESET, 0, 0, 0⟩
        ⟨1000, 8, 0, true, ⟨0, 0, 0, 0, 0, 0, 0⟩, fun _ => 0, fun _ => 0⟩).drv.state
      = STATE.CONFIGURE ∧
    (Run [] ⟨STATE.WAIT_FOR_RESET, 0, 0, 0⟩
        ⟨1000, 8, 0, true, ⟨0, 0, 0, 0, 0, 0, 0⟩, fun _ => 0, fun _ => 0⟩).sched
      = Sched.Now :=
  (C5_wait_for_reset [] ⟨STATE.WAIT_FOR_RESET, 0, 0, 0⟩
    ⟨1000, 8, 0, true, ⟨0, 0, 0, 0, 0, 0, 0⟩, fun _ => 0, fun _ => 0⟩ rfl).1
    (by decide)

/-- C2: in the CONFIGURE state, if every configuration-table entry passes
verification on this pass, the step function stores READ and schedules a
fixed 20 ms interval; if any entry failed verification (it was corrected in
place by `RegisterCheck`), the state remains CONFIGURE and a 50 ms delayed
re-invocation is scheduled to re-verify on the next pass. -/
theorem C2_configure_transition (cfg : List register_config_t) (d : Driver)
    (env : Env) (hstate : d.state = STATE.CONFIGURE) :
    ((∀ j, j < cfg.length →
        checkSuccess (cfg.getD j ⟨0, 0, 0⟩) (env.readVal j) = true) →
      (Run cfg d env).drv.state = STATE.READ ∧
        (Run cfg d env).sched = Sched.OnInterval 20000 20000) ∧
    ((¬ ∀ j, j < cfg.length →
        checkSuccess (cfg.getD j ⟨0, 0, 0⟩) (env.readVal j) = true) →
      (Run cfg d env).drv.state = STATE.CONFIGURE ∧
        (Run cfg d env).sched = Sched.Delayed 50000) := by
  have hiff := configureLoop_success_iff cfg env.readVal env.rmwVal 0
  simp only [Nat.zero_add] at hiff
  obtain ⟨s, rt, lt, cr⟩ := d
  replace hstate : s = STATE.CONFIGURE := hstate
  subst hstate
  constructor
  · intro h
    simp only [Run]
    rw [if_pos (hiff.mpr h)]
    exact ⟨rfl, rfl⟩
  · intro h
    simp only [Run]
    rw [if_neg (fun hc => h (hiff.mp hc))]
    exact ⟨rfl, rfl⟩

/-- Witness for C2: a one-entry table whose entry passes verification moves
the driver to READ on a 20 ms interval. -/
theorem C2_configure_transition_witness :
    (Run [⟨16, 1, 2⟩] ⟨STATE.CONFIGURE, 0, 0, 0⟩
        ⟨1000, 0, 0, true, ⟨0, 0, 0, 0, 0, 0, 0⟩, fun _ => 1, fun _ => 1⟩).drv.state
      = STATE.READ ∧
    (Run [⟨16, 1, 2⟩] ⟨STATE.CONFIGURE, 0, 0, 0⟩
        ⟨1000, 0, 0, true, ⟨0, 0, 0, 0, 0, 0, 0⟩, fun _ => 1, fun _ => 1⟩).sched
      = Sched.OnInterval 20000 20000 :=
  (C2_configure_transition [⟨16, 1, 2⟩] ⟨STATE.CONFIGURE, 0, 0, 0⟩
    ⟨1000, 0, 0, true, ⟨0, 0, 0, 0, 0, 0, 0⟩, fun _ => 1, fun _ => 1⟩ rfl).1
    (by decide)

theorem run_read_forwarded (cfg : List register_config_t) (d : Driver)
    (env : Env) (h : d.state = STATE.READ) :
    (Run cfg d env).forwarded =
      if env.buf.STAT ≠ 0 ∧ STAT_BIT_DRDY ≠ 0 then
        some (env.now, combine env.buf.DATAXH env.buf.DATAXL,
              combine env.buf.DATAYH env.buf.DATAYL,
              combine env.buf.DATAZH env.buf.DATAZL)
      else none := by
  obtain ⟨s, rt, lt, cr⟩ := d
  replace h : s = STATE.READ := h
  subst h
  simp only [Run]
  split
  · split <;> rfl
  · rfl

theorem run_read_badTransfer (cfg : List register_config_t) (d : Driver)
    (env : Env) (h : d.state = STATE.READ) :
    (Run cfg d env).badTransfer = !env.transferOk := by
  obtain ⟨s, rt, lt, cr⟩ := d
  replace h : s = STATE.READ := h
  subst h
  simp only [Run]
  split
  · split <;> rfl
  · rfl

/-- C10: in the READ state, the decision to forward a sample does not depend
on whether the bulk transfer succeeded: a transfer failure only sets the
failure flag (counted via the bad-transfer counter and used to trigger a
health check), and when the status-byte condition holds a sample built from
the buffer contents (zero-initialized, possibly partially written on a
failed transfer) is still forwarded. -/
theorem C10_forward_independent_of_transfer (cfg : List register_config_t)
    (d : Driver) (env : Env) (hstate : d.state = STATE.READ)
    (hfail : env.transferOk = false) (hstat : env.buf.STAT ≠ 0) :
    (Run cfg d env).badTransfer = true ∧
    (Run cfg d env).forwarded =
      (Run cfg d { env with transferOk := true }).forwarded ∧
    (Run cfg d env).forwarded = some (env.now,
      combine env.buf.DATAXH env.buf.DATAXL,
      combine env.buf.DATAYH env.buf.DATAYL,
      combine env.buf.DATAZH env.buf.DATAZL) := by
  refine ⟨?_, ?_, ?_⟩
  · rw [run_read_badTransfer cfg d env hstate, hfail]
    rfl
  · rw [run_read_forwarded cfg d env hstate,
      run_read_forwarded cfg d { env with transferOk := true } hstate]
  · rw [run_read_forwarded cfg d env hstate,
      if_pos ⟨hstat, by decide⟩]

/-- Witness for C10: a failed transfer with a nonzero status byte still
forwards a sample decoded from the buffer. -/
theorem C10_forward_independent_of_transfer_witness :
    (Run [] ⟨STATE.READ, 0, 0, 0⟩
        ⟨7, 0, 0, false, ⟨1, 2, 1, 2, 1, 2, 1⟩, fun _ => 0, fun _ => 0⟩).badTransfer
      = true ∧
    (Run [] ⟨STATE.READ, 0, 0, 0⟩
        ⟨7, 0, 0, false, ⟨1, 2, 1, 2, 1, 2, 1⟩, fun _ => 0, fun _ => 0⟩).forwarded =
      (Run [] ⟨STATE.READ, 0, 0, 0⟩
        ⟨7, 0, 0, true, ⟨1, 2, 1, 2, 1, 2, 1⟩, fun _ => 0, fun _ => 0⟩).forwarded ∧
    (Run [] ⟨STATE.READ, 0, 0, 0⟩
        ⟨7, 0, 0, false, ⟨1, 2, 1, 2, 1, 2, 1⟩, fun _ => 0, fun _ => 0⟩).forwarded
      = some (7, combine 1 2, combine 1 2, combine 1 2) :=
  C10_forward_independent_of_transfer [] ⟨STATE.READ, 0, 0, 0⟩
    ⟨7, 0, 0, false, ⟨1, 2, 1, 2, 1, 2, 1⟩, fun _ => 0, fun _ => 0⟩
    rfl rfl (by decide)

/-- C1: the sample-ready test at IST8308.cpp line 186,
`if (buffer.STAT && STAT_BIT::DRDY)`, uses the C++ logical AND instead of a
bitwise mask test, so it is equivalent to `buffer.STAT != 0`: a status byte
of 2 has the DRDY mask bit (bit 0) clear, yet the decoded sample is still
forwarded to the measurement sink — contradicting the claimed
"forwarded if and only if the masked DRDY bit is set". -/
theorem C1_drdy_bug_failing_input :
    (2 &&& STAT_BIT_DRDY = 0) ∧
    ((Run [] ⟨STATE.READ, 0, 0, 0⟩
        ⟨0, 0, 0, true, ⟨2, 0, 0, 0, 0, 0, 0⟩, fun _ => 0, fun _ => 0⟩).forwarded).isSome
      = true := by
  decide

/-- C7: whenever a configuration-table entry fails bit verification in
`RegisterCheck`, exactly one corrective read-modify-write is performed: the
write list is the single pair of the entry's register with the value
(value-read-by-the-RMW OR set_bits) AND-NOT clear_bits, and `RegisterCheck`
still returns failure, so success is only declared when a later re-read
passes verification. -/
theorem C7_corrective_rmw (c : register_config_t) (v rmw : Nat)
    (hset : c.set_bits ≤ 255) (hrmw : rmw ≤ 255)
    (hfail : checkSuccess c v = false) :
    RegisterCheck c v rmw =
      (false, [(c.reg, (rmw ||| c.set_bits) &&& (255 ^^^ c.clear_bits))]) := by
  unfold RegisterCheck
  rw [hfail, if_neg Bool.false_ne_true]
  have hval : setAndClearBitsValue rmw c.set_bits c.clear_bits =
      (rmw ||| c.set_bits) &&& (255 ^^^ c.clear_bits) := by
    unfold setAndClearBitsValue
    have hor : rmw ||| c.set_bits < 2 ^ 8 :=
      Nat.or_lt_two_pow (by omega) (by omega)
    by_cases hs : c.set_bits = 0 <;> by_cases hc : c.clear_bits = 0 <;>
      simp [hs, hc]
    · have h255 : rmw &&& 2 ^ 8 - 1 = rmw :=
        Nat.and_pow_two_sub_one_of_lt_two_pow (by omega)
      norm_num at h255
      exact h255.symm
    · have h255 : (rmw ||| c.set_bits) &&& 2 ^ 8 - 1 = rmw ||| c.set_bits :=
        Nat.and_pow_two_sub_one_of_lt_two_pow hor
      norm_num at h255
      exact h255.symm
  rw [hval]

/-- Witness for C7: entry requiring bit 0 set verified against read value 0
fails, and the corrective write stores (0 OR 1) AND-NOT 0 = 1. -/
theorem C7_corrective_rmw_witness :
    RegisterCheck ⟨16, 1, 0⟩ 0 0 =
      (false, [(16, (0 ||| 1) &&& (255 ^^^ 0))]) :=
  C7_corrective_rmw ⟨16, 1, 0⟩ 0 0 (by decide) (by decide) (by decide)

/-- C8: the decoded raw axis value is the 16-bit signed integer whose MSB is
the high data register and LSB the low data register: `combine` agrees with
the positional-value signed decode for all byte inputs; in particular
DATAXH = 0x01, DATAXL = 0x02 decodes to 0x0102 = 258, a sample with those
bytes forwards 258 as the raw X value, and the sink converts it to
calibrated units by the fixed scale constant. -/
theorem C8_decode (msb lsb : Nat) (hl : lsb ≤ 255) :
    combine msb lsb = int16OfBytes msb lsb ∧
    combine 1 2 = 258 ∧
    (Run [] ⟨STATE.READ, 0, 0, 0⟩
        ⟨5, 0, 0, true, ⟨1, 2, 1, 2, 1, 2, 1⟩, fun _ => 0, fun _ => 0⟩).forwarded
      = some (5, 258, 258, 258) ∧
    sinkCalibrated (combine 1 2) = 258 * mag_scale := by
  have h258 : combine 1 2 = 258 := by decide
  refine ⟨?_, h258, by decide, by rw [sinkCalibrated, h258]; norm_num⟩
  unfold combine int16OfBytes
  have hshift : msb <<< 8 = msb * 256 := by
    rw [Nat.shiftLeft_eq]
  have hor : msb <<< 8 ||| lsb = msb * 256 + lsb := by
    rw [hshift, Nat.mul_comm msb 256]
    have := Nat.mul_add_lt_is_or (b := lsb) (i := 8) (a := msb) (by omega)
    rw [Nat.mul_comm 256 msb] at this ⊢
    rw [← this, Nat.mul_comm msb 256]
  rw [hor]

/-- Witness for C8 at the claim's bytes MSB = 0x01, LSB = 0x02. -/
theorem C8_decode_witness :
    combine 1 2 = int16OfBytes 1 2 ∧
    combine 1 2 = 258 ∧
    (Run [] ⟨STATE.READ, 0, 0, 0⟩
        ⟨5, 0, 0, true, ⟨1, 2, 1, 2, 1, 2, 1⟩, fun _ => 0, fun _ => 0⟩).forwarded
      = some (5, 258, 258, 258) ∧
    sinkCalibrated (combine 1 2) = 258 * mag_scale :=
  C8_decode 1 2 (by decide)

theorem cons_range_map_mod (c len k : Nat) (hc : c < len) (t : List Nat)
    (ht : t = (List.range k).map (fun i => ((c + 1) % len + i) % len)) :
    c :: t = (List.range (k + 1)).map (fun i => (c + i) % len) := by
  subst ht
  rw [List.range_succ_eq_map, List.map_cons, List.map_map]
  congr 1
  · exact (by rw [Nat.add_zero, Nat.mod_eq_of_lt hc] : c = (c + 0) % len)
  · refine List.map_congr_left fun i _ => ?_
    show ((c + 1) % len + i) % len = (c + Nat.succ i) % len
    rw [Nat.mod_add_mod]
    congr 1
    omega

/-- C4 (counterexample to the claim as stated): a window of table-length
consecutive sampling cycles in the READ state may contain no health check at
all, because checks are gated on transfer failure or 100 ms elapsed: with a
two-entry table, two consecutive successful-transfer cycles at 20 ms and
40 ms after the last check leave the driver in READ yet check no entry, so
the cursor does not visit every entry once per table-length cycles. -/
theorem C4_counterexample :
    List.length [(⟨16, 1, 0⟩ : register_config_t), ⟨17, 1, 0⟩] = 2 ∧
    (Run [⟨16, 1, 0⟩, ⟨17, 1, 0⟩] ⟨STATE.READ, 0, 0, 0⟩
        ⟨20000, 0, 0, true, ⟨1, 0, 0, 0, 0, 0, 0⟩, fun _ => 1, fun _ => 1⟩).drv.state
      = STATE.READ ∧
    (Run [⟨16, 1, 0⟩, ⟨17, 1, 0⟩]
        (Run [⟨16, 1, 0⟩, ⟨17, 1, 0⟩] ⟨STATE.READ, 0, 0, 0⟩
          ⟨20000, 0, 0, true, ⟨1, 0, 0, 0, 0, 0, 0⟩, fun _ => 1, fun _ => 1⟩).drv
        ⟨40000, 0, 0, true, ⟨1, 0, 0, 0, 0, 0, 0⟩, fun _ => 1, fun _ => 1⟩).drv.state
      = STATE.READ ∧
    checkTrace [⟨16, 1, 0⟩, ⟨17, 1, 0⟩] ⟨STATE.READ, 0, 0, 0⟩
        [⟨20000, 0, 0, true, ⟨1, 0, 0, 0, 0, 0, 0⟩, fun _ => 1, fun _ => 1⟩,
         ⟨40000, 0, 0, true, ⟨1, 0, 0, 0, 0, 0, 0⟩, fun _ => 1, fun _ => 1⟩]
      = [] := by
  decide

/-- C4 (amended): while the driver stays in the READ state, the health-check
cursor visits configuration-table entries in fixed round-robin order from
its current position, wrapping modulo the table length: the sequence of
checked indices over any run that stays in READ is exactly cursor,
cursor + 1, ... modulo table length (so every entry is visited exactly once
per table-length consecutive *executed health checks*, not per table-length
sampling cycles — cycles where the transfer succeeded and less than 100 ms
elapsed since the last check execute no check), and the final cursor is the
initial cursor plus the number of executed checks, modulo table length. -/
theorem C4_round_robin_amended (cfg : List register_config_t) (d : Driver)
    (envs : List Env) (hlen : 0 < cfg.length)
    (hc : d.checked_register < cfg.length)
    (hstay : StaysInRead cfg d envs) :
    checkTrace cfg d envs =
      (List.range (checkTrace cfg d envs).length).map
        (fun i => (d.checked_register + i) % cfg.length) ∧
    (runSeq cfg d envs).checked_register =
      (d.checked_register + (checkTrace cfg d envs).length) % cfg.length := by
  induction envs generalizing d with
  | nil =>
    simp [checkTrace, runSeq, Nat.mod_eq_of_lt hc]
  | cons e es ih =>
    obtain ⟨hread, hstay'⟩ := hstay
    rcases run_read_cases cfg d e hread with ⟨hdrv, hidx⟩ |
      ⟨hidx, hok, hst, hcur⟩ | ⟨hidx, hok, hst, hcur⟩
    · rw [hdrv] at hstay'
      simp only [checkTrace, runSeq, hidx, hdrv]
      exact ih d hc hstay'
    · have hlt : (Run cfg d e).drv.checked_register < cfg.length := by
        rw [hcur]
        exact Nat.mod_lt _ hlen
      obtain ⟨iht, ihc⟩ := ih (Run cfg d e).drv hlt hstay'
      rw [hcur] at iht ihc
      simp only [checkTrace, runSeq, hidx, List.length_cons]
      refine ⟨cons_range_map_mod d.checked_register cfg.length _ hc _ iht, ?_⟩
      rw [ihc, Nat.mod_add_mod]
      congr 1
      omega
    · have hread' := staysInRead_first cfg _ es hstay'
      rw [hst] at hread'
      exact absurd hread' (by decide)

/-- Witness for the amended C4: a one-entry table, a READ-state driver with
cursor 0 and one cycle whose health check runs and succeeds. -/
theorem C4_round_robin_amended_witness :
    (0 : Nat) < List.length [(⟨16, 1, 0⟩ : register_config_t)] ∧
    (checkTrace [⟨16, 1, 0⟩] ⟨STATE.READ, 0, 0, 0⟩
        [⟨200000, 0, 0, true, ⟨1, 0, 0, 0, 0, 0, 0⟩, fun _ => 1, fun _ => 1⟩] =
      (List.range (checkTrace [⟨16, 1, 0⟩] ⟨STATE.READ, 0, 0, 0⟩
          [⟨200000, 0, 0, true, ⟨1, 0, 0, 0, 0, 0, 0⟩, fun _ => 1, fun _ => 1⟩]).length).map
        (fun i => (0 + i) % List.length [(⟨16, 1, 0⟩ : register_config_t)]) ∧
      (runSeq [⟨16, 1, 0⟩] ⟨STATE.READ, 0, 0, 0⟩
          [⟨200000, 0, 0, true, ⟨1, 0, 0, 0, 0, 0, 0⟩, fun _ => 1, fun _ => 1⟩]).checked_register =
        (0 + (checkTrace [⟨16, 1, 0⟩] ⟨STATE.READ, 0, 0, 0⟩
          [⟨200000, 0, 0, true, ⟨1, 0, 0, 0, 0, 0, 0⟩, fun _ => 1, fun _ => 1⟩]).length) %
          List.length [(⟨16, 1, 0⟩ : register_config_t)]) :=
  ⟨by decide,
    C4_round_robin_amended [⟨16, 1, 0⟩] ⟨STATE.READ, 0, 0, 0⟩
      [⟨200000, 0, 0, true, ⟨1, 0, 0, 0, 0, 0, 0⟩, fun _ => 1, fun _ => 1⟩]
      (by decide) (by decide) ⟨rfl, rfl⟩⟩

end IST8308
